import Mathlib

/-!
Verification of the tv-trading-bot paper-trading engine.

Shallow embedding conventions:
* Rust `f64` quantities (prices, fees, percentages) are modelled as exact
  rationals (`ℚ`); all claims checked here are order/structural properties
  whose concrete inputs are exactly representable.
* `chrono::DateTime<Utc>` timestamps are modelled as seconds since the Unix
  epoch (`Nat`); the funding-fee logic only inspects the calendar date and
  the hour, both derived from whole seconds.
* MongoDB `ObjectId` is modelled as `Nat`.
* Fallible store calls are modelled by `Except String _` outcome parameters
  threaded into the functions that perform them.
-/

namespace TvBot

/-- `TradeSignal` from src/models/trade.rs: a buy or sell alert signal. -/
inductive TradeSignal where
  | buy
  | sell
deriving DecidableEq, Repr

/-- `TradeDirection` from src/models/trade.rs: the direction of a trade. -/
inductive TradeDirection where
  | long
  | short
deriving DecidableEq, Repr

/-- `TradeKind` from src/models/trade.rs: paper or live trade. -/
inductive TradeKind where
  | paper
  | live
deriving DecidableEq, Repr

/-- `TradeLeverage` from src/models/trade.rs: the fixed leverage choices. -/
inductive TradeLeverage where
  | one
  | two
  | three
  | five
  | ten
deriving DecidableEq, Repr

/-- The numeric value of a `TradeLeverage` (the `.into()` conversion used at
the `calc_liquidation_price` and `calc_roe` call sites in src/api/trade.rs). -/
def TradeLeverage.toRat : TradeLeverage → ℚ
  | .one => 1
  | .two => 2
  | .three => 3
  | .five => 5
  | .ten => 10

/-- `From<TradeSignal> for TradeDirection` in src/models/trade.rs:
Buy becomes Long and Sell becomes Short. -/
def TradeSignal.toDirection : TradeSignal → TradeDirection
  | .buy => .long
  | .sell => .short

/-- `ActiveTrade` from src/models/trade.rs, with the `alert_name` field used
by `execute_paper_trade` in src/api/trade.rs. -/
structure ActiveTrade where
  id : Nat
  alertName : String
  pair : String
  direction : TradeDirection
  kind : TradeKind
  openTimestamp : Nat
  quantity : ℚ
  entryPrice : ℚ
  leverage : TradeLeverage
  liquidationPrice : ℚ
  takeProfit : Option ℚ
  stopLoss : Option ℚ
deriving DecidableEq, Repr

/-- `ClosedTrade` from src/models/trade.rs, with the `alert_name` field used
by `execute_paper_trade` in src/api/trade.rs. -/
structure ClosedTrade where
  id : Nat
  alertName : String
  pair : String
  direction : TradeDirection
  kind : TradeKind
  quantity : ℚ
  entryPrice : ℚ
  exitPrice : ℚ
  leverage : TradeLeverage
  liquidationPrice : ℚ
  openTimestamp : Nat
  closeTimestamp : Nat
  pnl : ℚ
  roe : ℚ
  executionFees : ℚ
  fundingFees : ℚ
deriving DecidableEq, Repr

/-- `TradingViewAlert` from src/models/tradingview.rs. -/
structure TradingViewAlert where
  name : String
  signal : TradeSignal
  pair : String
  price : ℚ
  takeProfit : Option ℚ
  stopLoss : Option ℚ
  secret : String
deriving DecidableEq, Repr

/-! Constants from src/constants/trade.rs. -/

/-- `ACCEPTED_SYMBOLS` from src/constants/trade.rs. -/
def ACCEPTED_SYMBOLS : List String := ["BTCUSDT", "ETHUSDT", "BNBUSDT", "SOLUSDT"]

/-- `EXECUTION_FEE_PERCENTAGE = 0.05` from src/constants/trade.rs. -/
def EXECUTION_FEE_PERCENTAGE : ℚ := 5 / 100

/-- `FUNDING_FEE_8H_PERCENTAGE = 0.01` from src/constants/trade.rs. -/
def FUNDING_FEE_8H_PERCENTAGE : ℚ := 1 / 100

/-- `FUNDING_FEE_HOURS = [0, 8, 16]` from src/constants/trade.rs. -/
def FUNDING_FEE_HOURS : List Nat := [0, 8, 16]

/-- `MAINTENANCE_MARGIN = 1.0` (percent) from src/constants/trade.rs. -/
def MAINTENANCE_MARGIN : ℚ := 1

/-- `DEFAULT_NOTIONAL_VALUE = 1000.0` from src/constants/trade.rs. -/
def DEFAULT_NOTIONAL_VALUE : ℚ := 1000

/-- `DEFAULT_LEVERAGE = TradeLeverage::Three` from src/constants/trade.rs. -/
def DEFAULT_LEVERAGE : TradeLeverage := .three

/-- `DEFAULT_TAKE_PROFIT_PERCENTAGE = 5.0` from src/constants/trade.rs. -/
def DEFAULT_TAKE_PROFIT_PERCENTAGE : ℚ := 5

/-- `DEFAULT_STOP_LOSS_PERCENTAGE = 2.0` from src/constants/trade.rs. -/
def DEFAULT_STOP_LOSS_PERCENTAGE : ℚ := 2

/-! Fee/PnL calculators from src/api/trade_helpers.rs. -/

/-- `calc_pnl` from src/api/trade_helpers.rs. -/
def calc_pnl (entryPrice exitPrice quantity executionFees fundingFees : ℚ)
    (direction : TradeDirection) : ℚ :=
  let rawPnl :=
    if direction = TradeDirection.long then (exitPrice - entryPrice) * quantity
    else (entryPrice - exitPrice) * quantity
  rawPnl - executionFees - fundingFees

/-- `calc_roe` from src/api/trade_helpers.rs. -/
def calc_roe (pnl entryPrice quantity leverage : ℚ) : ℚ :=
  let notionalValue := entryPrice * quantity
  let margin := notionalValue / leverage
  (pnl / margin) * 100

/-- `calc_liquidation_price` from src/api/trade_helpers.rs. -/
def calc_liquidation_price (entryPrice leverage : ℚ) (direction : TradeDirection) : ℚ :=
  if direction = TradeDirection.long then
    entryPrice * (1 - (1 / leverage) + ((MAINTENANCE_MARGIN / 100) / leverage))
  else
    entryPrice * (1 + (1 / leverage) - ((MAINTENANCE_MARGIN / 100) / leverage))

/-- `calc_final_execution_fees` from src/api/trade_helpers.rs. -/
def calc_final_execution_fees (quantity entryPrice : ℚ) : ℚ :=
  2 * (EXECUTION_FEE_PERCENTAGE / 100 * quantity * entryPrice)

/-! Funding-time arithmetic from src/api/trade_helpers.rs.  Timestamps are
seconds since the Unix epoch; `date_naive` is division by 86400 and `hour()`
is `(t % 86400) / 3600`. -/

/-- `NaiveDate::and_hms_opt(h, 0, 0)` on a day index: the timestamp at hour
`h` of day `date`, or `none` when the hour is out of range (chrono validity
check; minutes and seconds are the literal zeros used in the source). -/
def and_hms_opt (date h : Nat) : Option Nat :=
  if h < 24 then some (date * 86400 + h * 3600) else none

/-- The `for` loop of `get_next_funding_time` in src/api/trade_helpers.rs:
scan the funding hours, and for the first one strictly after the current
hour return its timestamp today; a `None` from `and_hms_opt` is skipped and
the scan continues. -/
def findFundingToday (date hour : Nat) : List Nat → Option Nat
  | [] => none
  | fh :: rest =>
    if hour < fh then
      match and_hms_opt date fh with
      | some t => some t
      | none => findFundingToday date hour rest
    else findFundingToday date hour rest

/-- `get_next_funding_time` from src/api/trade_helpers.rs.  `none` models the
final `panic!` branch ("No valid funding times configured"), reached only if
both the scan over today's hours and the next-day construction fail. -/
def get_next_funding_time (t : Nat) : Option Nat :=
  let date := t / 86400
  let hour := t % 86400 / 3600
  match findFundingToday date hour FUNDING_FEE_HOURS with
  | some r => some r
  | none =>
    match and_hms_opt (date + 1) (FUNDING_FEE_HOURS.headD 0) with
    | some r => some r
    | none => none

/-- The `while current_funding_time <= close_timestamp` loop of
`calc_final_funding_fees` in src/api/trade_helpers.rs: accrue one funding fee
per instant, stepping by `Duration::hours(8)` = 28800 seconds. -/
def fundingLoop (avg : ℚ) (close cur : Nat) (acc : ℚ) : ℚ :=
  if cur ≤ close then
    fundingLoop avg close (cur + 28800) (acc + avg * (FUNDING_FEE_8H_PERCENTAGE / 100))
  else acc
termination_by close + 28800 - cur
decreasing_by omega

/-- The iteration count of `fundingLoop`, with the same recursion structure. -/
def loopIters (close cur : Nat) : Nat :=
  if cur ≤ close then loopIters close (cur + 28800) + 1 else 0
termination_by close + 28800 - cur
decreasing_by omega

/-- `calc_final_funding_fees` from src/api/trade_helpers.rs.  The `0` in the
`none` branch stands for the unreachable panic inside `get_next_funding_time`
(proved unreachable below). -/
def calc_final_funding_fees (openTimestamp closeTimestamp : Nat)
    (averageNotionalValue : ℚ) : ℚ :=
  if closeTimestamp ≤ openTimestamp then 0
  else
    match get_next_funding_time openTimestamp with
    | some first => fundingLoop averageNotionalValue closeTimestamp first 0
    | none => 0

/-- The number of iterations the accrual loop of `calc_final_funding_fees`
performs for given open/close timestamps. -/
def fundingIterations (openTimestamp closeTimestamp : Nat) : Nat :=
  if closeTimestamp ≤ openTimestamp then 0
  else
    match get_next_funding_time openTimestamp with
    | some first => loopIters closeTimestamp first
    | none => 0

/-! In-memory registry and application state.  `ActiveTradesMap` in
src/api/trade.rs is `Arc<Mutex<HashMap<ObjectId, ActiveTrade>>>`; the map is
modelled as an association list with HashMap insert/remove semantics. -/

/-- The in-memory active-trades map (`ActiveTradesMap` in src/api/trade.rs). -/
def Registry := List (Nat × ActiveTrade)
deriving DecidableEq, Repr

/-- `HashMap::remove` on the active-trades map: drop the entry with this id. -/
def Registry.removeId (r : Registry) (id : Nat) : Registry :=
  List.filter (fun p => p.1 ≠ id) r

/-- Lookup of an id in the active-trades map. -/
def Registry.lookupId (r : Registry) (id : Nat) : Option ActiveTrade :=
  (List.find? (fun p => p.1 = id) r).map (fun p => p.2)

/-- `HashMap::insert` on the active-trades map: replace any entry with the
trade's id. -/
def Registry.insertT (r : Registry) (t : ActiveTrade) : Registry :=
  (t.id, t) :: r.removeId t.id

/-- The values of the active-trades map (`map.values()` in
src/api/websocket.rs). -/
def Registry.valuesList (r : Registry) : List ActiveTrade :=
  List.map (fun p => p.2) r

/-- The two MongoDB collections of src/models/db.rs, modelled by contents. -/
structure DbState where
  active : List ActiveTrade
  closed : List ClosedTrade
deriving DecidableEq, Repr

/-- `AppState` from src/models/state.rs: the store plus the in-memory
active-trades map. -/
structure AppStateM where
  db : DbState
  activeTrades : Registry
deriving DecidableEq, Repr

/-- `close_paper_trade` from src/api/trade.rs (lines 379-399): it removes the
trade from the in-memory map ("so we don't close it twice") and then only
prints; the insertion into the closed-trades collection and the deletion of
the active record are present only as comments in the source, so the store is
untouched.  The exit price is unused apart from logging. -/
def close_paper_trade (st : AppStateM) (tradeId : Nat) (_exitPrice : ℚ) : AppStateM :=
  { st with activeTrades := st.activeTrades.removeId tradeId }

/-! The alert-driven open/close path, `execute_paper_trade` from
src/api/trade.rs.  The handler receives only the MongoDB state (no
`AppState`), so the in-memory map is out of its reach; the registry field is
carried through to state that it is never touched.  Store-call outcomes and
the generated id / current time are parameters. -/

/-- The HTTP outcomes of `execute_paper_trade` (status line + branch). -/
inductive TradeOutcome where
  | unauthorized
  | ignoredDuplicate
  | closedAndOpened
  | openedNew
  | errAddClosed
  | errDeleteActive
  | errAddActive
deriving DecidableEq, Repr

/-- `(DEFAULT_NOTIONAL_VALUE / alert.price * 100.0).round() / 100.0` — the
quantity rounded to two decimal places (Rust `f64::round`, half away from
zero, which on the positive quantities used here agrees with `round`). -/
def roundTo2dp (x : ℚ) : ℚ := (round (x * 100) : ℚ) / 100

/-- The new `ActiveTrade` literal built by `execute_paper_trade` (identical in
the fresh-open branch and the reopen-after-close branch of
src/api/trade.rs). -/
def newActiveTrade (alert : TradingViewAlert) (now newId : Nat) : ActiveTrade :=
  { id := newId
    alertName := alert.name
    pair := alert.pair
    direction := alert.signal.toDirection
    kind := .paper
    openTimestamp := now
    quantity := roundTo2dp (DEFAULT_NOTIONAL_VALUE / alert.price)
    entryPrice := alert.price
    leverage := DEFAULT_LEVERAGE
    liquidationPrice := calc_liquidation_price alert.price DEFAULT_LEVERAGE.toRat
      alert.signal.toDirection
    takeProfit := alert.takeProfit
    stopLoss := alert.stopLoss }

/-- The `ClosedTrade` literal built by the opposite-direction branch of
`execute_paper_trade` (src/api/trade.rs lines 179-226): fees, PnL and ROE are
computed with the alert's price as exit price and `Utc::now()` as close
time. -/
def closeExistingTrade (existing : ActiveTrade) (alert : TradingViewAlert)
    (now : Nat) : ClosedTrade :=
  let executionFees := calc_final_execution_fees existing.quantity existing.entryPrice
  let fundingFees := calc_final_funding_fees existing.openTimestamp now
    ((existing.quantity * existing.entryPrice + existing.quantity * alert.price) / 2)
  let pnl := calc_pnl existing.entryPrice alert.price existing.quantity
    executionFees fundingFees existing.direction
  let roe := calc_roe pnl existing.entryPrice existing.quantity existing.leverage.toRat
  { id := existing.id
    alertName := alert.name
    pair := existing.pair
    direction := existing.direction
    kind := existing.kind
    quantity := existing.quantity
    entryPrice := existing.entryPrice
    exitPrice := alert.price
    leverage := existing.leverage
    liquidationPrice := existing.liquidationPrice
    openTimestamp := existing.openTimestamp
    closeTimestamp := now
    pnl := pnl
    roe := roe
    executionFees := executionFees
    fundingFees := fundingFees }

/-- `execute_paper_trade` from src/api/trade.rs (payload already
deserialized).  `fetchResult` is the outcome of `fetch_active_trade_by_apk`;
note the source's `if let Ok(Some(..))` treats a fetch error like an absent
trade.  `rClosed`, `rDel` and `rAdd` are the outcomes of `add_closed_trade`,
`delete_active_trade` and `add_active_trade` in the order the source awaits
them. -/
def execute_paper_trade (st : AppStateM) (alert : TradingViewAlert)
    (expectedSecret : String)
    (fetchResult : Except String (Option ActiveTrade))
    (now newId : Nat)
    (rClosed rDel rAdd : Except String Unit) : AppStateM × TradeOutcome :=
  if alert.secret ≠ expectedSecret then (st, .unauthorized)
  else
    match fetchResult with
    | .ok (some existing) =>
      if existing.direction = alert.signal.toDirection then (st, .ignoredDuplicate)
      else
        let closed := closeExistingTrade existing alert now
        match rClosed with
        | .error _ => (st, .errAddClosed)
        | .ok _ =>
          let st1 : AppStateM :=
            { st with db := { st.db with closed := st.db.closed ++ [closed] } }
          match rDel with
          | .error _ => (st1, .errDeleteActive)
          | .ok _ =>
            let st2 : AppStateM :=
              { st1 with db := { st1.db with
                  active := List.filter (fun t => t.id ≠ existing.id) st1.db.active } }
            match rAdd with
            | .error _ => (st2, .errAddActive)
            | .ok _ =>
              ({ st2 with db := { st2.db with
                  active := st2.db.active ++ [newActiveTrade alert now newId] } },
                .closedAndOpened)
    | _ =>
      match rAdd with
      | .error _ => (st, .errAddActive)
      | .ok _ =>
        ({ st with db := { st.db with
            active := st.db.active ++ [newActiveTrade alert now newId] } },
          .openedNew)

/-! Symbol handling on the tick path (src/api/websocket.rs lines 90-101).
Rust strings are compared bytewise; symbols are ASCII, so a string is
modelled by its byte list for the case-folding operations. -/

/-- `u8::to_ascii_uppercase`: map a lowercase ASCII letter byte to its
uppercase counterpart, leave every other byte unchanged. -/
def asciiUpperByte (b : Nat) : Nat :=
  if 97 ≤ b ∧ b ≤ 122 then b - 32 else b

/-- The bytes of a symbol string (code points; symbols are ASCII). -/
def strBytes (s : String) : List Nat :=
  List.map Char.toNat s.toList

/-- Rust `str::to_uppercase` restricted to ASCII input, as applied to
`ticker_update.product_id` in src/api/websocket.rs line 90. -/
def rustToUppercase (s : List Nat) : List Nat :=
  List.map asciiUpperByte s

/-- Rust `str::eq_ignore_ascii_case`, the comparison used by the trade filter
in src/api/websocket.rs line 98. -/
def rustEqIgnoreAsciiCase (a b : List Nat) : Bool :=
  List.map asciiUpperByte a == List.map asciiUpperByte b

/-- The per-trade symbol match of src/api/websocket.rs lines 90 and 98: the
tick's product id is uppercased once, then compared with the position's pair
ignoring ASCII case. -/
def pairMatchesTick (pair productId : String) : Bool :=
  rustEqIgnoreAsciiCase (strBytes pair) (rustToUppercase (strBytes productId))

/-- `trades_to_check` from src/api/websocket.rs lines 95-101: the snapshot of
in-memory trades whose pair matches the tick's product id. -/
def trades_to_check (r : Registry) (productId : String) : List ActiveTrade :=
  List.filter (fun t => pairMatchesTick t.pair productId) r.valuesList

/-- Modelled from the spec: `is_trigger_hit` is imported from `crate::api` by
src/api/websocket.rs but its defining module is not among the provided source
files.  Spec §4.4: a Long closes when `price <= stopLoss` (if set), or
`price >= takeProfit` (if set), or `price <= liquidationPrice`; a Short with
the comparisons reversed; liquidation takes precedence over stop-loss, which
takes precedence over take-profit.  `closeReason` returns the
highest-priority fired condition. -/
inductive CloseReason where
  | liquidated
  | stopLossHit
  | takeProfitHit
deriving DecidableEq, Repr

/-- Modelled from the spec: the prioritized trigger decision (see
`CloseReason`).  Checks liquidation first, then stop-loss, then
take-profit, with direction-aware comparisons. -/
def closeReason (t : ActiveTrade) (price : ℚ) : Option CloseReason :=
  match t.direction with
  | .long =>
    if price ≤ t.liquidationPrice then some .liquidated
    else if (match t.stopLoss with | some sl => decide (price ≤ sl) | none => false) then
      some .stopLossHit
    else if (match t.takeProfit with | some tp => decide (tp ≤ price) | none => false) then
      some .takeProfitHit
    else none
  | .short =>
    if t.liquidationPrice ≤ price then some .liquidated
    else if (match t.stopLoss with | some sl => decide (sl ≤ price) | none => false) then
      some .stopLossHit
    else if (match t.takeProfit with | some tp => decide (price ≤ tp) | none => false) then
      some .takeProfitHit
    else none

/-- Modelled from the spec: `is_trigger_hit` — whether any close condition
fires for this trade at this price. -/
def is_trigger_hit (t : ActiveTrade) (price : ℚ) : Bool :=
  (closeReason t price).isSome

/-! The Coinbase feed pipeline from src/api/websocket.rs. -/

/-- `CoinbaseTickerUpdate` as used by src/api/websocket.rs: the event type
tag, the product id, and an optional price.  In the source the price is an
`Option<String>` later parsed with `parse::<f64>().unwrap_or(0.0)`; it is
modelled as the parsed value, with `none` standing for an absent price field
(an unparsable string also falls back to `0.0` in the source; that fallback
is folded into the same default). -/
structure CoinbaseTickerUpdate where
  update_type : String
  product_id : String
  price : Option ℚ
deriving DecidableEq, Repr

/-- One raw WebSocket frame as seen by the read loop of
`connect_and_subscribe_to_coinbase`: a text frame that deserializes to a
`CoinbaseTickerUpdate` (`text (some u)`), a text frame that fails to
deserialize (`text none`, malformed JSON or wrong shape), or a non-text
frame (binary/ping/pong, ignored by the source's `Ok(_)` arm). -/
inductive WsMessage where
  | text (parsed : Option CoinbaseTickerUpdate)
  | nonText
deriving DecidableEq, Repr

/-- The filtering of `connect_and_subscribe_to_coinbase` (src/api/websocket.rs
lines 42-58): a successfully parsed text frame with `type == "ticker"` is
forwarded to the channel; everything else is dropped. -/
def adapterEmit (msg : WsMessage) : Option CoinbaseTickerUpdate :=
  match msg with
  | .text (some u) => if u.update_type == "ticker" then some u else none
  | .text none => none
  | .nonText => none

/-- The consumer body of `start_price_listener` (src/api/websocket.rs lines
85-111): compute the effective price (`0.0` when the price field is absent),
snapshot the matching trades, and close each one whose trigger is hit. -/
def processTicker (st : AppStateM) (u : CoinbaseTickerUpdate) : AppStateM :=
  let price := u.price.getD 0
  let toCheck := trades_to_check st.activeTrades u.product_id
  List.foldl
    (fun s t => if is_trigger_hit t price then close_paper_trade s t.id price else s)
    st toCheck

/-- One feed message handled end to end: the adapter filter followed (when a
ticker survives it) by the consumer. -/
def handleMessage (st : AppStateM) (msg : WsMessage) : AppStateM :=
  match adapterEmit msg with
  | none => st
  | some u => processTicker st u

/-! Startup preload from src/server.rs lines 37-43. -/

/-- Whether the process continues after the startup preload, and with which
state.  The source never aborts here; `aborted` exists to state the claim. -/
inductive StartupResult where
  | started (st : AppStateM)
  | aborted
deriving DecidableEq, Repr

/-- The preload block of `main` in src/server.rs: `if let Ok(existing_trades)
= mongo_state.fetch_active_trades(None, 1, 1000).await` inserts each fetched
trade into the in-memory map; a fetch error is silently skipped and startup
continues with the map as it was. -/
def startupPreload (st : AppStateM)
    (fetchResult : Except String (List ActiveTrade)) : StartupResult :=
  match fetchResult with
  | .ok trades =>
    .started { st with
      activeTrades := List.foldl (fun r t => r.insertT t) st.activeTrades trades }
  | .error _ => .started st

/-! Claim-side notions. -/

/-- A configured daily funding instant: a timestamp at exactly 00:00, 08:00
or 16:00 UTC (the hours of `FUNDING_FEE_HOURS`, minutes and seconds zero). -/
def isFundingInstant (t : Nat) : Bool :=
  t % 86400 == 0 || t % 86400 == 28800 || t % 86400 == 57600

/-! Funding-time lemmas. -/

/-- `get_next_funding_time` returns the least multiple of 28800 seconds (8
hours) strictly greater than its input. -/
theorem get_next_funding_time_eq (t : Nat) :
    get_next_funding_time t = some ((t / 28800 + 1) * 28800) := by
  simp only [get_next_funding_time, FUNDING_FEE_HOURS, findFundingToday, and_hms_opt,
    List.headD]
  norm_num
  split_ifs <;> simp <;> omega

/-- Closed form of the loop iteration count, by induction on a fuel bound for
the decreasing measure. -/
theorem loopIters_eq_fuel : ∀ (n close cur : Nat), close + 28800 - cur ≤ n →
    loopIters close cur = if cur ≤ close then (close - cur) / 28800 + 1 else 0 := by
  intro n
  induction n with
  | zero =>
    intro close cur h
    rw [loopIters]
    have hc : ¬ cur ≤ close := by omega
    simp [hc]
  | succ n ih =>
    intro close cur h
    rw [loopIters]
    by_cases hc : cur ≤ close
    · rw [if_pos hc, if_pos hc, ih close (cur + 28800) (by omega)]
      split_ifs <;> omega
    · simp [hc]

/-- Closed form of the loop iteration count. -/
theorem loopIters_eq (close cur : Nat) :
    loopIters close cur = if cur ≤ close then (close - cur) / 28800 + 1 else 0 :=
  loopIters_eq_fuel (close + 28800 - cur) close cur le_rfl

/-- The accrual loop adds one funding-fee term per iteration (fuel form). -/
theorem fundingLoop_eq_fuel : ∀ (n : Nat) (avg : ℚ) (close cur : Nat) (acc : ℚ),
    close + 28800 - cur ≤ n →
    fundingLoop avg close cur acc =
      acc + (loopIters close cur : ℚ) * (avg * (FUNDING_FEE_8H_PERCENTAGE / 100)) := by
  intro n
  induction n with
  | zero =>
    intro avg close cur acc h
    rw [fundingLoop, loopIters]
    have hc : ¬ cur ≤ close := by omega
    simp [hc]
  | succ n ih =>
    intro avg close cur acc h
    rw [fundingLoop, loopIters]
    by_cases hc : cur ≤ close
    · rw [if_pos hc, if_pos hc, ih avg close (cur + 28800) _ (by omega)]
      push_cast
      ring
    · simp [hc]

/-- The accrual loop adds one funding-fee term per iteration. -/
theorem fundingLoop_eq (avg : ℚ) (close cur : Nat) (acc : ℚ) :
    fundingLoop avg close cur acc =
      acc + (loopIters close cur : ℚ) * (avg * (FUNDING_FEE_8H_PERCENTAGE / 100)) :=
  fundingLoop_eq_fuel (close + 28800 - cur) avg close cur acc le_rfl

/-- Counting funding instants in a half-open interval of timestamps. -/
theorem card_fundingInstants (o c : Nat) :
    ((Finset.Ioc o c).filter (fun t => isFundingInstant t = true)).card =
      c / 28800 - o / 28800 := by
  have hset : ((Finset.Ioc o c).filter (fun t => isFundingInstant t = true)) =
      (Finset.Ioc (o / 28800) (c / 28800)).image (fun k => k * 28800) := by
    ext t
    simp only [Finset.mem_filter, Finset.mem_Ioc, Finset.mem_image, isFundingInstant,
      Bool.or_eq_true, beq_iff_eq]
    constructor
    · rintro ⟨⟨h1, h2⟩, h3⟩
      exact ⟨t / 28800, ⟨by omega, by omega⟩, by omega⟩
    · rintro ⟨k, ⟨hk1, hk2⟩, rfl⟩
      omega
  rw [hset, Finset.card_image_of_injective _ (fun a b h => by omega), Nat.card_Ioc]

/-! Registry lemmas. -/

/-- Removing an id leaves no entry with that id behind. -/
theorem lookupId_removeId (r : Registry) (id : Nat) :
    (r.removeId id).lookupId id = none := by
  have hfind : List.find? (fun p => decide (p.1 = id))
      (List.filter (fun p => decide (p.1 ≠ id)) r) = none := by
    rw [List.find?_eq_none]
    intro x hx
    have hmem := List.of_mem_filter hx
    simp only [decide_eq_true_eq] at hmem ⊢
    exact hmem
  simp only [Registry.removeId, Registry.lookupId, hfind]
  rfl

theorem lookupId_removeId_ne (r : Registry) (id tid : Nat) (h : id ≠ tid) :
    (r.removeId tid).lookupId id = r.lookupId id := by
  induction r with
  | nil => rfl
  | cons hd tl ih =>
    by_cases hk : hd.1 = tid
    · have h2 : ¬ hd.1 = id := by omega
      have e1 : Registry.removeId (hd :: tl) tid = Registry.removeId tl tid := by
        simp [Registry.removeId, List.filter_cons, hk]
      have e2 : Registry.lookupId (hd :: tl) id = Registry.lookupId tl id := by
        simp [Registry.lookupId, List.find?_cons, h2]
      rw [e1, e2]
      exact ih
    · by_cases hid2 : hd.1 = id
      · simp [Registry.removeId, Registry.lookupId, List.filter_cons, List.find?_cons,
          hk, hid2, h]
      · have e1 : Registry.removeId (hd :: tl) tid = hd :: Registry.removeId tl tid := by
          simp [Registry.removeId, List.filter_cons, hk]
        have e2 : Registry.lookupId (hd :: Registry.removeId tl tid) id
            = Registry.lookupId (Registry.removeId tl tid) id := by
          simp [Registry.lookupId, List.find?_cons, hid2]
        have e3 : Registry.lookupId (hd :: tl) id = Registry.lookupId tl id := by
          simp [Registry.lookupId, List.find?_cons, hid2]
        rw [e1, e2, e3]
        exact ih

theorem lookupId_insertT_self (r : Registry) (t : ActiveTrade) :
    (r.insertT t).lookupId t.id = some t := by
  simp [Registry.insertT, Registry.lookupId, List.find?]

theorem lookupId_insertT_pres (r : Registry) (t : ActiveTrade) (id : Nat)
    (h : r.lookupId id ≠ none) : (r.insertT t).lookupId id ≠ none := by
  by_cases hid : id = t.id
  · subst hid
    rw [lookupId_insertT_self]
    exact Option.some_ne_none t
  · have hid2 : ¬ t.id = id := by omega
    have heq : (r.insertT t).lookupId id = (r.removeId t.id).lookupId id := by
      simp [Registry.insertT, Registry.lookupId, List.find?, hid2]
    rw [heq, lookupId_removeId_ne r id t.id hid]
    exact h

theorem lookupId_foldl_insertT_pres (ts : List ActiveTrade) (r : Registry) (id : Nat)
    (h : r.lookupId id ≠ none) :
    (List.foldl (fun r t => r.insertT t) r ts).lookupId id ≠ none := by
  induction ts generalizing r with
  | nil => exact h
  | cons hd tl ih => exact ih (r.insertT hd) (lookupId_insertT_pres r hd id h)

theorem lookupId_foldl_insertT_mem (ts : List ActiveTrade) (r : Registry)
    (t : ActiveTrade) (h : t ∈ ts) :
    (List.foldl (fun r t => r.insertT t) r ts).lookupId t.id ≠ none := by
  induction ts generalizing r with
  | nil => cases h
  | cons hd tl ih =>
    rcases List.mem_cons.mp h with rfl | hmem
    · exact lookupId_foldl_insertT_pres tl (r.insertT t) t.id
        (by rw [lookupId_insertT_self]; exact Option.some_ne_none t)
    · exact ih (r.insertT hd) hmem

/-- Claim C8: for all timestamps and every average notional, the funding fee
is zero when `closeAt <= openAt`, and otherwise accrues
`avgNotional * fundingRatePerInterval` once for each configured daily funding
instant (00:00, 08:00, 16:00 UTC) lying strictly after `openAt` and at or
before `closeAt`. -/
theorem funding_fee_counts_instants (o c : Nat) (avg : ℚ) :
    calc_final_funding_fees o c avg =
      if c ≤ o then 0
      else (((Finset.Ioc o c).filter (fun t => isFundingInstant t = true)).card : ℚ) *
        (avg * (FUNDING_FEE_8H_PERCENTAGE / 100)) := by
  unfold calc_final_funding_fees
  by_cases h : c ≤ o
  · simp [h]
  · rw [if_neg h, if_neg h, get_next_funding_time_eq]
    simp only [fundingLoop_eq, loopIters_eq, card_fundingInstants]
    have hcount : (if (o / 28800 + 1) * 28800 ≤ c
          then (c - (o / 28800 + 1) * 28800) / 28800 + 1 else 0)
        = c / 28800 - o / 28800 := by
      split_ifs <;> omega
    rw [hcount]
    ring

/-- Claim C9: the funding-fee accrual loop of `calc_final_funding_fees`
terminates with an iteration count bounded by the trade duration divided by
the 8-hour interval, plus one; the fee equals that count times one interval
fee. -/
theorem funding_loop_iterations_bounded (o c : Nat) :
    fundingIterations o c ≤ (c - o) / 28800 + 1 ∧
    ∀ avg : ℚ, calc_final_funding_fees o c avg =
      (fundingIterations o c : ℚ) * (avg * (FUNDING_FEE_8H_PERCENTAGE / 100)) := by
  constructor
  · unfold fundingIterations
    by_cases h : c ≤ o
    · simp [h]
    · rw [if_neg h, get_next_funding_time_eq]
      simp only [loopIters_eq]
      split_ifs <;> omega
  · intro avg
    unfold calc_final_funding_fees fundingIterations
    by_cases h : c ≤ o
    · simp [h]
    · rw [if_neg h, if_neg h, get_next_funding_time_eq]
      simp only [fundingLoop_eq]
      ring

/-- Claim C10: `get_next_funding_time` returns normally on every input (the
panic fallthrough and the skipped-`None` branches are unreachable with the
configured hours [0, 8, 16]), and the returned instant is strictly after the
input timestamp. -/
theorem get_next_funding_time_total (t : Nat) :
    get_next_funding_time t = some ((t / 28800 + 1) * 28800) ∧
    t < (t / 28800 + 1) * 28800 :=
  ⟨get_next_funding_time_eq t, by omega⟩

/-! Concrete sample data for counterexamples and witnesses. -/

/-- A sample open Long position (entry 100 at leverage 3 gives liquidation
price 67 by `calc_liquidation_price`, the spec's own worked scenario). -/
def sampleLongTrade : ActiveTrade :=
  { id := 1
    alertName := "alpha"
    pair := "BTC-USD"
    direction := .long
    kind := .paper
    openTimestamp := 0
    quantity := 10
    entryPrice := 100
    leverage := .three
    liquidationPrice := 67
    takeProfit := some 110
    stopLoss := some 95 }

/-- A state holding `sampleLongTrade` both in the store's active collection
and in the in-memory registry. -/
def oneTradeState : AppStateM :=
  { db := { active := [sampleLongTrade], closed := [] }
    activeTrades := [(1, sampleLongTrade)] }

/-- The empty state: no active trades anywhere. -/
def emptyState : AppStateM :=
  { db := { active := [], closed := [] }, activeTrades := [] }

/-- A Buy alert with no take-profit or stop-loss attached. -/
def sampleBuyAlert : TradingViewAlert :=
  { name := "alpha"
    signal := .buy
    pair := "BTC-USD"
    price := 100
    takeProfit := none
    stopLoss := none
    secret := "s" }

/-- A Sell alert with no take-profit or stop-loss attached, opposite in
direction to `sampleLongTrade`. -/
def sampleSellAlert : TradingViewAlert :=
  { name := "alpha"
    signal := .sell
    pair := "BTC-USD"
    price := 90
    takeProfit := none
    stopLoss := none
    secret := "s" }

/-! Claim C1. -/

/-- Claim C1 counterexample: closing `sampleLongTrade` on the tick path
removes it from the in-memory registry even though no ClosedPosition was
persisted (the closed collection stays empty) and the active record was not
deleted from the store — the registry is mutated before any persistence
succeeds, contradicting the claim. -/
theorem close_mutates_registry_without_persistence_cex :
    (close_paper_trade oneTradeState 1 95).activeTrades.lookupId 1 = none ∧
    (close_paper_trade oneTradeState 1 95).db.closed = [] ∧
    (close_paper_trade oneTradeState 1 95).db.active = [sampleLongTrade] :=
  ⟨rfl, rfl, rfl⟩

/-- Claim C1 (amended): on the tick-driven close path the in-memory registry
entry is removed immediately and unconditionally, before any persistence; the
persistence of the ClosedPosition and the deletion of the active record are
not performed at all (they are stubbed out), so the store is unchanged and a
position whose close was never persisted is nonetheless gone from the
registry and no longer eligible for re-evaluation. -/
theorem close_removes_registry_entry_only (st : AppStateM) (id : Nat) (p : ℚ) :
    (close_paper_trade st id p).activeTrades.lookupId id = none ∧
    (close_paper_trade st id p).db = st.db := by
  refine ⟨?_, rfl⟩
  exact lookupId_removeId st.activeTrades id

/-- Witness for the amended C1 theorem at a concrete state. -/
theorem close_removes_registry_entry_only_witness :
    (close_paper_trade oneTradeState 1 95).activeTrades.lookupId 1 = none ∧
    (close_paper_trade oneTradeState 1 95).db = oneTradeState.db :=
  close_removes_registry_entry_only oneTradeState 1 95

/-! Claim C2. -/

/-- Claim C2 counterexample: a successful fresh open (`openedNew`) appends
the new position to the store's active collection but leaves the in-memory
registry untouched (here: still empty), so the registry does not mirror the
store's active set after the open and tick-driven evaluation cannot see the
position. -/
theorem open_skips_registry_cex :
    (execute_paper_trade emptyState sampleBuyAlert "s" (Except.ok none) 5 7
      (Except.ok ()) (Except.ok ()) (Except.ok ())).2 = TradeOutcome.openedNew ∧
    (execute_paper_trade emptyState sampleBuyAlert "s" (Except.ok none) 5 7
      (Except.ok ()) (Except.ok ()) (Except.ok ())).1.db.active
      = [newActiveTrade sampleBuyAlert 5 7] ∧
    (execute_paper_trade emptyState sampleBuyAlert "s" (Except.ok none) 5 7
      (Except.ok ()) (Except.ok ()) (Except.ok ())).1.activeTrades = [] :=
  ⟨rfl, rfl, rfl⟩

/-- Claim C2 (amended): `execute_paper_trade` never mutates the in-memory
registry on any path; a successful fresh open inserts the new position only
into the persistent store's active collection, so the registry mirrors the
store only after the startup preload, not after an open. -/
theorem open_updates_store_only (st : AppStateM) (alert : TradingViewAlert)
    (sec : String) (fetch : Except String (Option ActiveTrade)) (now newId : Nat)
    (r1 r2 r3 : Except String Unit) :
    (execute_paper_trade st alert sec fetch now newId r1 r2 r3).1.activeTrades
      = st.activeTrades ∧
    ((execute_paper_trade st alert sec fetch now newId r1 r2 r3).2
        = TradeOutcome.openedNew →
      (execute_paper_trade st alert sec fetch now newId r1 r2 r3).1.db.active
        = st.db.active ++ [newActiveTrade alert now newId]) := by
  unfold execute_paper_trade
  by_cases hs : alert.secret ≠ sec
  · simp [hs]
  · rcases fetch with e | ot
    · rcases r3 with e3 | u3 <;> simp [hs]
    · rcases ot with _ | existing
      · rcases r3 with e3 | u3 <;> simp [hs]
      · by_cases hdir : existing.direction = alert.signal.toDirection
        · simp [hs, hdir]
        · rcases r1 with e1 | u1
          · simp [hs, hdir]
          · rcases r2 with e2 | u2
            · simp [hs, hdir]
            · rcases r3 with e3 | u3 <;> simp [hs, hdir]

/-- Witness for the amended C2 theorem at a concrete open. -/
theorem open_updates_store_only_witness :
    (execute_paper_trade emptyState sampleBuyAlert "s" (Except.ok none) 5 7
      (Except.ok ()) (Except.ok ()) (Except.ok ())).1.db.active
      = emptyState.db.active ++ [newActiveTrade sampleBuyAlert 5 7] :=
  (open_updates_store_only emptyState sampleBuyAlert "s" (Except.ok none) 5 7
    (Except.ok ()) (Except.ok ()) (Except.ok ())).2 rfl

/-! Claim C3 (spec-modelled trigger). -/

/-- Claim C3: for every position and tick price the (spec-modelled) trigger
decision closes a Long exactly when the price is at or below the stop-loss
(if set), at or above the take-profit (if set), or at or below the
liquidation price, with liquidation taking precedence over stop-loss and
stop-loss over take-profit; symmetrically, with reversed comparisons, for
Shorts. -/
theorem trigger_decision_matches_spec (t : ActiveTrade) (p : ℚ) :
    (t.direction = TradeDirection.long →
      ((is_trigger_hit t p = true) ↔
        ((∃ sl, t.stopLoss = some sl ∧ p ≤ sl) ∨
         (∃ tp, t.takeProfit = some tp ∧ tp ≤ p) ∨
         p ≤ t.liquidationPrice)) ∧
      (p ≤ t.liquidationPrice → closeReason t p = some CloseReason.liquidated) ∧
      (¬ p ≤ t.liquidationPrice → ∀ s, t.stopLoss = some s → p ≤ s →
        closeReason t p = some CloseReason.stopLossHit) ∧
      (¬ p ≤ t.liquidationPrice → (∀ s, t.stopLoss = some s → ¬ p ≤ s) →
        ∀ u, t.takeProfit = some u → u ≤ p →
        closeReason t p = some CloseReason.takeProfitHit)) ∧
    (t.direction = TradeDirection.short →
      ((is_trigger_hit t p = true) ↔
        ((∃ sl, t.stopLoss = some sl ∧ sl ≤ p) ∨
         (∃ tp, t.takeProfit = some tp ∧ p ≤ tp) ∨
         t.liquidationPrice ≤ p)) ∧
      (t.liquidationPrice ≤ p → closeReason t p = some CloseReason.liquidated) ∧
      (¬ t.liquidationPrice ≤ p → ∀ s, t.stopLoss = some s → s ≤ p →
        closeReason t p = some CloseReason.stopLossHit) ∧
      (¬ t.liquidationPrice ≤ p → (∀ s, t.stopLoss = some s → ¬ s ≤ p) →
        ∀ u, t.takeProfit = some u → p ≤ u →
        closeReason t p = some CloseReason.takeProfitHit)) := by
  obtain ⟨id, an, pr, dir, k, ot, q, ep, lev, lp, tp, sl⟩ := t
  cases dir
  case long =>
    constructor
    case right =>
      intro h
      exact nomatch h
    case left =>
      intro hd
      refine ⟨?_, ?_, ?_, ?_⟩
      · cases sl <;> cases tp <;>
          simp only [is_trigger_hit, closeReason] <;> split_ifs <;> simp_all
      · intro hliq
        simp [closeReason, hliq]
      · intro hnl s hs hps
        subst hs
        simp [closeReason, hnl, hps]
      · intro hnl hnsl u hu hpu
        subst hu
        cases sl with
        | none => simp [closeReason, hnl, hpu]
        | some s => simp [closeReason, hnl, hpu, hnsl s rfl]
  case short =>
    constructor
    case left =>
      intro h
      exact nomatch h
    case right =>
      intro hd
      refine ⟨?_, ?_, ?_, ?_⟩
      · cases sl <;> cases tp <;>
          simp only [is_trigger_hit, closeReason] <;> split_ifs <;> simp_all
      · intro hliq
        simp [closeReason, hliq]
      · intro hnl s hs hps
        subst hs
        simp [closeReason, hnl, hps]
      · intro hnl hnsl u hu hpu
        subst hu
        cases sl with
        | none => simp [closeReason, hnl, hpu]
        | some s => simp [closeReason, hnl, hpu, hnsl s rfl]

/-- Witness for C3: the spec scenario, a Long with liquidation price 67 hit
by a tick at 50. -/
theorem trigger_decision_matches_spec_witness :
    is_trigger_hit sampleLongTrade 50 = true :=
  ((trigger_decision_matches_spec sampleLongTrade 50).1 rfl).1.mpr
    (Or.inr (Or.inr (by decide)))

/-! Claim C4. -/

/-- ASCII uppercasing is idempotent on bytes. -/
theorem asciiUpperByte_idem (b : Nat) :
    asciiUpperByte (asciiUpperByte b) = asciiUpperByte b := by
  unfold asciiUpperByte
  split_ifs <;> omega

/-- A sample open position written in the no-separator convention of
`ACCEPTED_SYMBOLS`. -/
def solTrade : ActiveTrade :=
  { id := 3
    alertName := "beta"
    pair := "SOLUSDT"
    direction := .long
    kind := .paper
    openTimestamp := 0
    quantity := 10
    entryPrice := 100
    leverage := .three
    liquidationPrice := 67
    takeProfit := none
    stopLoss := none }

/-- Claim C4 counterexample: the repository itself spells the Solana market
both as `"SOLUSDT"` (the `ACCEPTED_SYMBOLS` allow-list) and as `"SOL-USDT"`
(the pair format documented for alerts and used by the feed subscriptions),
yet the tick-path comparison does not normalize separators: a position whose
pair is `"SOLUSDT"` is not matched — and hence not found by the per-symbol
lookup — for a tick whose product id is `"SOL-USDT"`. -/
theorem symbol_separator_not_normalized_cex :
    pairMatchesTick "SOLUSDT" "SOL-USDT" = false ∧
    trades_to_check [(3, solTrade)] "SOL-USDT" = [] ∧
    "SOLUSDT" ∈ ACCEPTED_SYMBOLS := by
  refine ⟨rfl, rfl, ?_⟩
  simp [ACCEPTED_SYMBOLS]

/-- Claim C4 (amended): the tick-path symbol comparison normalizes casing
only — it is exactly ASCII-case-insensitive equality of the two symbol
strings — and performs no separator normalization, so two spellings of one
market that differ in separator convention do not compare equal. -/
theorem symbol_match_is_case_insensitive_eq (pair productId : String) :
    pairMatchesTick pair productId =
      (List.map asciiUpperByte (strBytes pair)
        == List.map asciiUpperByte (strBytes productId)) := by
  unfold pairMatchesTick rustEqIgnoreAsciiCase rustToUppercase
  rw [List.map_map]
  have : (asciiUpperByte ∘ asciiUpperByte) = asciiUpperByte := by
    funext b
    exact asciiUpperByte_idem b
  rw [this]

/-! Claim C5. -/

/-- A ticker update whose price field is absent. -/
def pricelessTicker : CoinbaseTickerUpdate :=
  { update_type := "ticker", product_id := "BTC-USD", price := none }

/-- Claim C5 counterexample: a well-formed ticker message that merely lacks
its price field is forwarded with the price defaulted to `0.0`; evaluated
against the open Long position it fires the (spec-modelled) trigger — zero is
at or below the liquidation price — and the position is closed: the set of
open positions shrinks, contradicting the claim that such a message never
causes closure. -/
theorem missing_price_closes_position_cex :
    (handleMessage oneTradeState (WsMessage.text (some pricelessTicker))).activeTrades
      = [] ∧
    oneTradeState.activeTrades = [(1, sampleLongTrade)] :=
  ⟨rfl, rfl⟩

/-- Claim C5 (amended): malformed messages (failed deserialization),
non-text frames and non-ticker events produce no tick and leave the state —
in particular the set of open positions — unchanged; but a ticker event with
a missing price field is forwarded with price `0.0` rather than dropped, and
can close positions. -/
theorem bad_messages_leave_state_unchanged (st : AppStateM)
    (u : CoinbaseTickerUpdate) (h : u.update_type ≠ "ticker") :
    handleMessage st (WsMessage.text none) = st ∧
    handleMessage st WsMessage.nonText = st ∧
    handleMessage st (WsMessage.text (some u)) = st := by
  refine ⟨rfl, rfl, ?_⟩
  simp [handleMessage, adapterEmit, h]

/-- Witness for the amended C5 theorem: a `"subscriptions"` control message
is dropped. -/
theorem bad_messages_leave_state_unchanged_witness :
    handleMessage oneTradeState (WsMessage.text (some
      { update_type := "subscriptions", product_id := "BTC-USD", price := some 5 }))
      = oneTradeState :=
  (bad_messages_leave_state_unchanged oneTradeState
    { update_type := "subscriptions", product_id := "BTC-USD", price := some 5 }
    (by decide)).2.2

/-! Claim C6. -/

/-- Claim C6 counterexample: when the initial load of active trades fails,
the process does not abort — `main`'s `if let Ok(..)` silently skips the
preload and startup continues with an empty registry, contradicting the
claim that this failure is fatal. -/
theorem startup_load_failure_not_fatal_cex :
    startupPreload emptyState (Except.error "connection refused")
      = StartupResult.started emptyState ∧
    StartupResult.started emptyState ≠ StartupResult.aborted ∧
    emptyState.activeTrades = [] :=
  ⟨rfl, by simp, rfl⟩

/-- Claim C6 (amended): the startup preload runs before the price listener is
spawned, and on success loads every fetched active position into the
registry; but it is never fatal — a failed initial load is silently ignored
and the process continues with the registry unchanged (empty at boot). -/
theorem startup_preload_never_fatal (st : AppStateM)
    (res : Except String (List ActiveTrade)) :
    startupPreload st res ≠ StartupResult.aborted ∧
    (∀ e, res = Except.error e → startupPreload st res = StartupResult.started st) ∧
    (∀ ts, res = Except.ok ts → ∀ t ∈ ts,
      ∃ st2, startupPreload st res = StartupResult.started st2 ∧
        st2.activeTrades.lookupId t.id ≠ none) := by
  rcases res with e | ts
  · refine ⟨?_, ?_, ?_⟩
    · simp [startupPreload]
    · intro e2 h
      rfl
    · intro ts2 h
      cases h
  · refine ⟨?_, ?_, ?_⟩
    · simp [startupPreload]
    · intro e2 h
      cases h
    · intro ts2 h t ht
      cases h
      exact ⟨_, rfl, lookupId_foldl_insertT_mem _ st.activeTrades t ht⟩

/-- Witness for the amended C6 theorem: a concrete failed load continues with
the untouched (empty) state. -/
theorem startup_preload_never_fatal_witness :
    startupPreload emptyState (Except.error "timeout")
      = StartupResult.started emptyState :=
  (startup_preload_never_fatal emptyState (Except.error "timeout")).2.1 "timeout" rfl

/-! Claim C7. -/

/-- Claim C7 counterexample: an opposite-direction alert that carries no
take-profit and no stop-loss results (with every store call succeeding) in a
successful close-and-reopen whose new position has `takeProfit = none` and
`stopLoss = none` — the configured default percentages (5 and 2) exist but
are never applied, contradicting the claim that the defaults are used when
the alert omits these values. -/
theorem reopen_ignores_default_tp_sl_cex :
    (execute_paper_trade oneTradeState sampleSellAlert "s"
      (Except.ok (some sampleLongTrade)) 1000 9 (Except.ok ()) (Except.ok ())
      (Except.ok ())).2 = TradeOutcome.closedAndOpened ∧
    (execute_paper_trade oneTradeState sampleSellAlert "s"
      (Except.ok (some sampleLongTrade)) 1000 9 (Except.ok ()) (Except.ok ())
      (Except.ok ())).1.db.active = [newActiveTrade sampleSellAlert 1000 9] ∧
    sampleSellAlert.takeProfit = none ∧
    sampleSellAlert.stopLoss = none ∧
    (newActiveTrade sampleSellAlert 1000 9).takeProfit = none ∧
    (newActiveTrade sampleSellAlert 1000 9).stopLoss = none ∧
    DEFAULT_TAKE_PROFIT_PERCENTAGE = 5 ∧
    DEFAULT_STOP_LOSS_PERCENTAGE = 2 :=
  ⟨rfl, rfl, rfl, rfl, rfl, rfl, rfl, rfl⟩

/-- Claim C7 (amended): on an opposite-direction alert (all store calls
succeeding) the existing position is closed with the alert's price as exit
price, and a new position is opened in the alert's direction with the alert's
price as entry, the configured default notional (quantity =
`DEFAULT_NOTIONAL_VALUE / price` rounded to 2 dp) and default leverage, and
with take-profit and stop-loss equal to exactly the alert's optional values —
left unset when the alert omits them; the configured default percentages are
never applied. -/
theorem opposite_direction_reopen (st : AppStateM) (alert : TradingViewAlert)
    (sec : String) (existing : ActiveTrade) (now newId : Nat)
    (hsec : alert.secret = sec)
    (hdir : ¬ existing.direction = alert.signal.toDirection) :
    (execute_paper_trade st alert sec (Except.ok (some existing)) now newId
        (Except.ok ()) (Except.ok ()) (Except.ok ())).2
      = TradeOutcome.closedAndOpened ∧
    (execute_paper_trade st alert sec (Except.ok (some existing)) now newId
        (Except.ok ()) (Except.ok ()) (Except.ok ())).1.db.closed
      = st.db.closed ++ [closeExistingTrade existing alert now] ∧
    (closeExistingTrade existing alert now).exitPrice = alert.price ∧
    (closeExistingTrade existing alert now).closeTimestamp = now ∧
    (execute_paper_trade st alert sec (Except.ok (some existing)) now newId
        (Except.ok ()) (Except.ok ()) (Except.ok ())).1.db.active
      = List.filter (fun t => t.id ≠ existing.id) st.db.active
          ++ [newActiveTrade alert now newId] ∧
    (newActiveTrade alert now newId).direction = alert.signal.toDirection ∧
    (newActiveTrade alert now newId).entryPrice = alert.price ∧
    (newActiveTrade alert now newId).quantity
      = roundTo2dp (DEFAULT_NOTIONAL_VALUE / alert.price) ∧
    (newActiveTrade alert now newId).leverage = DEFAULT_LEVERAGE ∧
    (newActiveTrade alert now newId).takeProfit = alert.takeProfit ∧
    (newActiveTrade alert now newId).stopLoss = alert.stopLoss := by
  refine ⟨?_, ?_, rfl, rfl, ?_, rfl, rfl, rfl, rfl, rfl, rfl⟩ <;>
    simp [execute_paper_trade, hsec, hdir]

/-- Witness for the amended C7 theorem at a concrete opposite-direction
alert. -/
theorem opposite_direction_reopen_witness :
    (execute_paper_trade oneTradeState sampleSellAlert "s"
      (Except.ok (some sampleLongTrade)) 1000 9 (Except.ok ()) (Except.ok ())
      (Except.ok ())).1.db.closed
      = oneTradeState.db.closed
          ++ [closeExistingTrade sampleLongTrade sampleSellAlert 1000] :=
  (opposite_direction_reopen oneTradeState sampleSellAlert "s" sampleLongTrade 1000 9
    rfl (by decide)).2.1

end TvBot
